import Mathlib

/-!
Verification of the X11 selection bridge of spice-linux-vd_agent
(src/vdagent-x11.c), against its natural-language specification.

The embedding models the clipboard state machine of `struct vdagent_x11`
as a pure record `X11`, and each externally visible C function as a pure
function from a state (plus the message / event it handles) to a new
state together with the list of externally visible side effects it
performs, in order (messages written to the daemon over the udscs
socket, and X11 calls such as XChangeProperty or XSendEvent).

X11 atoms are interned integers: XInternAtom returns a fixed nonzero id
per name, distinct names giving distinct ids, with `None = 0`.  We fix
one concrete (injective) interning.  Window ids are likewise naturals.
Functions whose C original can read out of array bounds or otherwise
leave defined behaviour return `Option`, with `none` marking the
undefined outcome.
-/

namespace VdAgentX11

/-- X11 atoms, as interned integers (`None` = 0). -/
abbrev Atom := Nat

/-- The owner enum of vdagent-x11.c: owner_none, owner_guest, owner_client. -/
inductive Owner
  | none
  | guest
  | client
deriving DecidableEq, Repr

/-! ### Wire constants

`VD_AGENT_CLIPBOARD_*` payload types (spec section 6: NONE=0, UTF8_TEXT=1,
IMAGE_PNG=2, IMAGE_BMP=3, IMAGE_TIFF=4, IMAGE_JPG=5) and the selection ids
(CLIPBOARD=0, PRIMARY=1, SECONDARY=2). -/

def VD_AGENT_CLIPBOARD_NONE : Nat := 0
def VD_AGENT_CLIPBOARD_UTF8_TEXT : Nat := 1
def VD_AGENT_CLIPBOARD_IMAGE_PNG : Nat := 2
def VD_AGENT_CLIPBOARD_IMAGE_BMP : Nat := 3
def VD_AGENT_CLIPBOARD_IMAGE_TIFF : Nat := 4
def VD_AGENT_CLIPBOARD_IMAGE_JPG : Nat := 5

def SEL_CLIPBOARD : Nat := 0
def SEL_PRIMARY : Nat := 1
def SEL_SECONDARY : Nat := 2

/-! ### Interned atoms

One fixed injective assignment of ids to the atom names interned in
`vdagent_x11_create`.  `XA_ATOM` is the X11 predefined atom 4. -/

def xaAtom : Atom := 4
def clipboard_atom : Atom := 100
def clipboard_primary_atom : Atom := 101
def targets_atom : Atom := 102
def incr_atom : Atom := 103
def multiple_atom : Atom := 104

def atomUTF8STRING : Atom := 110
def atomTextPlainUtf8U : Atom := 111  -- "text/plain;charset=UTF-8"
def atomTextPlainUtf8L : Atom := 112  -- "text/plain;charset=utf-8"
def atomImagePng : Atom := 113
def atomImageBmp : Atom := 114
def atomImageXBmp : Atom := 115
def atomImageXMSBmp : Atom := 116
def atomImageXWinBitmap : Atom := 117
def atomImageTiff : Atom := 118
def atomImageJpeg : Atom := 119

/-- `struct clipboard_format_info`: a payload type together with the list of
interned atoms of its equivalent X11 targets (`atom_count` = list length). -/
structure FormatInfo where
  type : Nat
  atoms : List Atom
deriving DecidableEq, Repr

/-- `clipboard_format_templates` after interning in `vdagent_x11_create`:
the `x11->clipboard_formats` array, in declared order. -/
def clipboard_formats : List FormatInfo :=
  [ ⟨VD_AGENT_CLIPBOARD_UTF8_TEXT,
      [atomUTF8STRING, atomTextPlainUtf8U, atomTextPlainUtf8L]⟩,
    ⟨VD_AGENT_CLIPBOARD_IMAGE_PNG, [atomImagePng]⟩,
    ⟨VD_AGENT_CLIPBOARD_IMAGE_BMP,
      [atomImageBmp, atomImageXBmp, atomImageXMSBmp, atomImageXWinBitmap]⟩,
    ⟨VD_AGENT_CLIPBOARD_IMAGE_TIFF, [atomImageTiff]⟩,
    ⟨VD_AGENT_CLIPBOARD_IMAGE_JPG, [atomImageJpeg]⟩ ]

/-! ### vdagent_x11_target_to_type

The C source reads

  for (i = 0; i < clipboard_format_count; i++)
      for (j = 0; j < x11->clipboard_formats[i].atom_count; i++)
          if (x11->clipboard_formats[i].atoms[j] == target)
              return x11->clipboard_formats[i].type;

Note the inner loop increments `i`, not `j`; `j` stays 0 forever.  So the
inner condition re-reads `clipboard_formats[i].atom_count` for ever larger
`i`, and once `i` reaches `clipboard_format_count` that read is out of the
array's bounds: undefined behaviour.  We model the run exactly over the
format-array suffix starting at the current `i`: `tttInner` is control at
the inner loop's condition (with `j = 0`); an empty suffix there is the
out-of-bounds read, `TTTResult.oob`.  A template with an empty atom list
exits the inner loop, so the outer `i++` and the outer condition run (an
empty suffix there returns `VD_AGENT_CLIPBOARD_NONE`). -/

inductive TTTResult
  | found (t : Nat)
  | noneType
  | oob
deriving DecidableEq, Repr

def tttInner (target : Atom) : List FormatInfo → TTTResult
  | [] => .oob
  | f :: rest =>
    if f.atoms.length = 0 then
      match rest with
      | [] => .noneType
      | g :: rest2 => tttInner target (g :: rest2)
    else if f.atoms.headD 0 = target then .found f.type
    else tttInner target rest

/-- `vdagent_x11_target_to_type` as the source writes it (the run described
above, over the interned format catalog; the initial outer condition
`0 < clipboard_format_count` holds). -/
def vdagent_x11_target_to_type (target : Atom) : TTTResult :=
  match clipboard_formats with
  | [] => .noneType
  | f :: rest => tttInner target (f :: rest)

/-- Modelled from the spec: `classify_target(Atom) → ClipboardType | NONE`
(spec 4.2, and the design note asking for the obvious correct nested
iteration over the same catalog): the type of the first template, in
declared order, whose atom list contains the target; `none` when no
template's list contains it. -/
def classify_target_spec (target : Atom) : Option Nat :=
  (clipboard_formats.find? (fun f => f.atoms.contains target)).map (·.type)

/-! ### State and side effects -/

/-- `struct vdagent_x11_selection_request`: a queued X11 SelectionRequest
event (we keep the fields of the event the code reads: requestor window,
the derived selection id, target atom and requested property atom). -/
structure SelReq where
  requestor : Nat
  selection : Nat
  target : Atom
  property : Atom
deriving DecidableEq, Repr

/-- `struct vdagent_x11_conversion_request`. -/
structure ConvReq where
  target : Atom
  selection : Nat
deriving DecidableEq, Repr

/-- Messages written to the daemon with `udscs_write`. -/
inductive DMsg
  | clipboardData (sel typ : Nat) (payload : List Nat)
  | clipboardGrab (sel : Nat) (types : List Nat)
  | clipboardRelease (sel : Nat)
  | clipboardRequest (sel typ : Nat)
deriving DecidableEq, Repr

/-- Externally visible side effects, in the order the code performs them. -/
inductive Output
  | daemon (m : DMsg)                    -- udscs_write to the vdagentd socket
  | changeProperty (window prop typ format : Nat) (data : List Nat)
  | sendSelectionNotify (requestor prop target : Nat)   -- XSendEvent
  | setSelectionOwner (clip owner : Nat)
  | convertSelection (clip target prop : Nat)
  | selectInput (window : Nat)           -- XSelectInput PropertyChangeMask
  | readProp                             -- XGetWindowProperty + delete
deriving DecidableEq, Repr

/-- The clipboard-relevant mutable fields of `struct vdagent_x11`.  The
per-selection arrays of 256 entries become functions from the selection
id; `clipboard_agent_types`/`clipboard_x11_targets` with their
`clipboard_type_count` become lists holding the first `type_count`
entries.  The selection-request queue and conversion-request queue are
the linked lists, head first. -/
structure X11 where
  max_prop_size : Nat
  expected_targets_notifies : Nat → Nat
  clipboard_owner : Nat → Owner
  agent_types : Nat → List Nat
  x11_targets : Nat → List Atom
  conversion_req : List ConvReq
  expect_property_notify : Bool
  clipboard_data_size : Nat
  selection_req : List SelReq
  selection_req_data : Option (List Nat)
  selection_req_data_pos : Nat
  selection_req_atom : Atom

/-- Pointwise array update (`arr[i] = v`). -/
def upd {α : Type} (f : Nat → α) (i : Nat) (v : α) : Nat → α :=
  fun j => if j = i then v else f j

/-- `vdagent_x11_get_clipboard_atom`: selections 0 and 1 map to their
atoms, everything else is rejected (returns -1 in C). -/
def vdagent_x11_get_clipboard_atom (sel : Nat) : Option Atom :=
  if sel = SEL_CLIPBOARD then some clipboard_atom
  else if sel = SEL_PRIMARY then some clipboard_primary_atom
  else none

/-- The `CLIPBOARD_DATA(selection, VD_AGENT_CLIPBOARD_NONE, NULL, 0)`
refusal message. -/
def dataNoneMsg (sel : Nat) : Output :=
  .daemon (.clipboardData sel VD_AGENT_CLIPBOARD_NONE [])

/-- The `SelectionNotify` reply with `property = None` for a queued
selection request (`vdagent_x11_send_selection_notify(x11, None, req)`). -/
def notifyNoneOf (r : SelReq) : Output :=
  .sendSelectionNotify r.requestor 0 r.target

/-! ### vdagent_x11_set_clipboard_owner

The function walks the selection-request queue and the conversion-request
queue, removing every node of the given selection: each removed selection
request is answered with a `SelectionNotify(property=None)`, each removed
conversion request with `CLIPBOARD_DATA(selection, NONE)`.  A node removed
while at the head position additionally resets the in-flight buffers
(`selection_req_data*` resp. `clipboard_data_size` /
`expect_property_notify`); the head position holds a node of the given
selection exactly when the original head matches.  Going to `owner_none`
from `owner_guest` sends `CLIPBOARD_RELEASE`, and going to `owner_none`
zeroes `clipboard_type_count`. -/

def flushSelQueue (sel : Nat) : List SelReq → List SelReq × List Output
  | [] => ([], [])
  | r :: rest =>
    let p := flushSelQueue sel rest
    if r.selection = sel then (p.1, notifyNoneOf r :: p.2)
    else (r :: p.1, p.2)

def flushConvQueue (sel : Nat) : List ConvReq → List ConvReq × List Output
  | [] => ([], [])
  | c :: rest =>
    let p := flushConvQueue sel rest
    if c.selection = sel then (p.1, dataNoneMsg sel :: p.2)
    else (c :: p.1, p.2)

def headMatchesSel (sel : Nat) : List SelReq → Bool
  | r :: _ => r.selection = sel
  | [] => false

def headMatchesConv (sel : Nat) : List ConvReq → Bool
  | c :: _ => c.selection = sel
  | [] => false

def vdagent_x11_set_clipboard_owner (st : X11) (sel : Nat) (new_owner : Owner) :
    X11 × List Output :=
  let ps := flushSelQueue sel st.selection_req
  let selCleared := headMatchesSel sel st.selection_req
  let pc := flushConvQueue sel st.conversion_req
  let convCleared := headMatchesConv sel st.conversion_req
  let releaseOuts :=
    if new_owner = Owner.none ∧ st.clipboard_owner sel = Owner.guest then
      [Output.daemon (.clipboardRelease sel)]
    else []
  let st' : X11 :=
    { st with
      selection_req := ps.1
      selection_req_data :=
        if selCleared then none else st.selection_req_data
      selection_req_data_pos :=
        if selCleared then 0 else st.selection_req_data_pos
      selection_req_atom :=
        if selCleared then 0 else st.selection_req_atom
      conversion_req := pc.1
      clipboard_data_size :=
        if convCleared then 0 else st.clipboard_data_size
      expect_property_notify :=
        if convCleared then false else st.expect_property_notify
      agent_types :=
        if new_owner = Owner.none then upd st.agent_types sel []
        else st.agent_types
      x11_targets :=
        if new_owner = Owner.none then upd st.x11_targets sel []
        else st.x11_targets
      clipboard_owner := upd st.clipboard_owner sel new_owner }
  (st', ps.2 ++ pc.2 ++ releaseOuts)

/-! ### vdagent_x11_send_targets

Builds the reply target array, TARGETS first: for every advertised agent type
in order, for every catalog template of that type, all of the template's
atoms are appended; after an append making the count 256 the loops are
left (`goto exit_loop`).  The property written is the requestor's chosen
property, or the request's target atom when the requestor passed
`property = None`. -/

def addAtomsCapped : List Atom → List Atom → List Atom × Bool
  | acc, [] => (acc, false)
  | acc, a :: rest =>
    if acc.length + 1 = 256 then (acc ++ [a], true)
    else addAtomsCapped (acc ++ [a]) rest

def addFormatsFor (t : Nat) : List FormatInfo → List Atom → List Atom × Bool
  | [], acc => (acc, false)
  | f :: rest, acc =>
    if f.type = t then
      let p := addAtomsCapped acc f.atoms
      if p.2 then (p.1, true) else addFormatsFor t rest p.1
    else addFormatsFor t rest acc

def sendTargetsGo : List Nat → List Atom → List Atom
  | [], acc => acc
  | t :: restT, acc =>
    let p := addFormatsFor t clipboard_formats acc
    if p.2 then p.1 else sendTargetsGo restT p.1

def sendTargetsList (types : List Nat) : List Atom :=
  sendTargetsGo types [targets_atom]

/-! ### vdagent_x11_handle_selection_request

Processes the head of the selection-request queue.  A request that is
immediately answered (not owning the client clipboard, MULTIPLE target,
TARGETS reply, unknown target) is answered via
`vdagent_x11_send_selection_notify(..., NULL)`, which dequeues it and
processes the next queued request; a recognised data target sends
`CLIPBOARD_REQUEST` to the daemon and leaves the request at the head,
waiting for `CLIPBOARD_DATA`.  Because `vdagent_x11_target_to_type` can
leave defined behaviour (see above), the result is an `Option`; the
state differs from the input state only in `selection_req`. -/

def processSelReqs (st : X11) : List SelReq → Option (X11 × List Output)
  | [] => some ({ st with selection_req := [] }, [])
  | req :: rest =>
    if st.clipboard_owner req.selection ≠ Owner.client then
      (processSelReqs st rest).map (fun p => (p.1, notifyNoneOf req :: p.2))
    else if req.target = multiple_atom then
      (processSelReqs st rest).map (fun p => (p.1, notifyNoneOf req :: p.2))
    else if req.target = targets_atom then
      let ts := sendTargetsList (st.agent_types req.selection)
      let prop := if req.property = 0 then req.target else req.property
      (processSelReqs st rest).map (fun p =>
        (p.1, Output.changeProperty req.requestor prop xaAtom 32 ts ::
              Output.sendSelectionNotify req.requestor prop req.target :: p.2))
    else
      match vdagent_x11_target_to_type req.target with
      | .oob => none
      | .noneType =>
        (processSelReqs st rest).map (fun p => (p.1, notifyNoneOf req :: p.2))
      | .found t =>
        if t = VD_AGENT_CLIPBOARD_NONE then
          (processSelReqs st rest).map (fun p => (p.1, notifyNoneOf req :: p.2))
        else
          some ({ st with selection_req := req :: rest },
                [Output.daemon (.clipboardRequest req.selection t)])

def vdagent_x11_handle_selection_request (st : X11) :
    Option (X11 × List Output) :=
  processSelReqs st st.selection_req

/-- The SelectionRequest arm of `vdagent_x11_handle_event`.  The event's
selection atom is classified by `vdagent_x11_get_clipboard_selection`
(unknown selections are dropped); `allocOk = false` is the
`malloc(sizeof(*new_req))` failure, which only logs and leaves the event
unhandled.  Otherwise the request is appended to the queue, and processed
at once when the queue was empty. -/
def handle_selection_request_event (st : X11) (selectionAtom : Atom)
    (requestor target property : Nat) (allocOk : Bool) :
    Option (X11 × List Output) :=
  let sel? : Option Nat :=
    if selectionAtom = clipboard_atom then some SEL_CLIPBOARD
    else if selectionAtom = clipboard_primary_atom then some SEL_PRIMARY
    else none
  match sel? with
  | none => some (st, [])
  | some sel =>
    if ¬allocOk then some (st, [])
    else
      let req : SelReq := ⟨requestor, sel, target, property⟩
      if st.selection_req = [] then
        processSelReqs { st with selection_req := [req] } [req]
      else
        some ({ st with selection_req := st.selection_req ++ [req] }, [])

/-! ### vdagent_x11_clipboard_data -/

/-- `vdagent_x11_clipboard_data`: data (or a NONE refusal) arriving from
the daemon for the selection request being served.  Data arriving while
a previous INCR send is still in flight, or with no outstanding selection
request, is discarded.  A `(selection, type)` mismatch against the active
request is answered `SelectionNotify(property=None)` and the queue
advances.  Otherwise the payload is served: in one 8-bit property write
of the request's target type if it fits in `max_prop_size`, else by
starting an INCR transfer. -/
def vdagent_x11_clipboard_data (st : X11) (selection typ : Nat)
    (data : List Nat) : Option (X11 × List Output) :=
  if st.selection_req_data.isSome then some (st, [])
  else
    match st.selection_req with
    | [] => some (st, [])
    | req :: rest =>
      match vdagent_x11_target_to_type req.target with
      | .oob => none
      | r =>
        let type_from_event :=
          match r with
          | .found t => t
          | _ => VD_AGENT_CLIPBOARD_NONE
        if type_from_event ≠ typ ∨ selection ≠ req.selection then
          (processSelReqs st rest).map
            (fun p => (p.1, notifyNoneOf req :: p.2))
        else
          let prop := if req.property = 0 then req.target else req.property
          if st.max_prop_size < data.length then
            some ({ st with
                      selection_req_data := some data
                      selection_req_data_pos := 0
                      selection_req_atom := prop },
                  [Output.selectInput req.requestor,
                   Output.changeProperty req.requestor prop incr_atom 32
                     [data.length],
                   Output.sendSelectionNotify req.requestor prop req.target])
          else
            (processSelReqs st rest).map (fun p =>
              (p.1, Output.changeProperty req.requestor prop req.target 8 data ::
                    Output.sendSelectionNotify req.requestor prop req.target ::
                    p.2))

/-! ### vdagent_x11_handle_property_delete_notify -/

/-- One INCR-send step, driven by a `PropertyNotify(PropertyDelete)` event
on `(window, atom)`.  Events not matching the requestor window and the
stashed property atom are ignored.  Otherwise the next chunk of at most
`max_prop_size` bytes is written as an 8-bit property of the request's
target type; writing the final zero-length chunk frees the buffer,
dequeues the request and processes the next one.  (The source asserts
`x11->selection_req != NULL`; a state with a buffer but no request is the
assertion failure, modelled as `none`.) -/
def vdagent_x11_handle_property_delete_notify (st : X11)
    (window atom : Nat) : Option (X11 × List Output) :=
  match st.selection_req_data with
  | Option.none => some (st, [])
  | some data =>
    match st.selection_req with
    | [] => none
    | req :: rest =>
      if window ≠ req.requestor ∨ atom ≠ st.selection_req_atom then
        some (st, [])
      else
        let len := min (data.length - st.selection_req_data_pos)
                       st.max_prop_size
        let chunk := (data.drop st.selection_req_data_pos).take len
        let out1 := Output.changeProperty req.requestor st.selection_req_atom
                      req.target 8 chunk
        if len = 0 then
          (processSelReqs
              { st with
                  selection_req_data := Option.none
                  selection_req_data_pos := 0
                  selection_req_atom := 0 } rest).map
            (fun p => (p.1, out1 :: p.2))
        else
          some ({ st with
                    selection_req_data_pos := st.selection_req_data_pos + len },
                [out1])

/-- Drives an in-flight INCR send to completion: the X11 requestor deletes
the property after reading each chunk, delivering the matching
`PropertyNotify(PropertyDelete)` each time, until the bridge's send buffer
is gone. -/
def incrPump (st : X11) : Nat → Option (X11 × List Output)
  | 0 => some (st, [])
  | fuel + 1 =>
    match st.selection_req_data with
    | Option.none => some (st, [])
    | some _ =>
      match st.selection_req with
      | [] => none
      | req :: _ =>
        match vdagent_x11_handle_property_delete_notify st req.requestor
            st.selection_req_atom with
        | Option.none => none
        | some p =>
          (incrPump p.1 fuel).map (fun q => (q.1, p.2 ++ q.2))

/-! ### vdagent_x11_type_to_target and vdagent_x11_clipboard_request -/

/-- `vdagent_x11_type_to_target`: the x11 target atom recorded for an
agent type in the advertised catalog of the selection, `None` (0) when
the type is not advertised.  (The C walks
`clipboard_agent_types[sel][i]` / `clipboard_x11_targets[sel][i]` for
`i < clipboard_type_count[sel]`; in every reachable guest-owned state the
two lists have equal length.) -/
def vdagent_x11_type_to_target (st : X11) (sel typ : Nat) : Atom :=
  match (st.agent_types sel).findIdx? (fun t => t = typ) with
  | some i => (st.x11_targets sel).getD i 0
  | Option.none => 0

/-- `vdagent_x11_clipboard_request`: the daemon asks for guest clipboard
data.  Refused with `CLIPBOARD_DATA(selection, NONE)` when the selection
is invalid, the guest does not own the clipboard, or the type is not
advertised.  Otherwise a conversion request is queued; `allocOk = false`
is the `malloc` failure, which logs and returns with nothing sent.  When
the new request is the only one, `vdagent_x11_handle_conversion_request`
issues `XConvertSelection(clip, target, clip, selection_window)`. -/
def vdagent_x11_clipboard_request (st : X11) (sel typ : Nat)
    (allocOk : Bool) : X11 × List Output :=
  match vdagent_x11_get_clipboard_atom sel with
  | Option.none => (st, [dataNoneMsg sel])
  | some clip =>
    if st.clipboard_owner sel ≠ Owner.guest then (st, [dataNoneMsg sel])
    else
      let target := vdagent_x11_type_to_target st sel typ
      if target = 0 then (st, [dataNoneMsg sel])
      else if ¬allocOk then (st, [])
      else if st.conversion_req = [] then
        ({ st with conversion_req := [⟨target, sel⟩] },
         [Output.convertSelection clip target clip])
      else
        ({ st with conversion_req := st.conversion_req ++ [⟨target, sel⟩] },
         [])

/-! ### vdagent_x11_clipboard_grab and vdagent_x11_clipboard_release -/

/-- The selection-proxy window id (`x11->selection_window`). -/
def selection_window : Nat := 1

/-- `vdagent_x11_clipboard_grab`: the daemon advertises client clipboard
types.  Invalid selections are dropped.  The advertised type list is
copied (capped at 256), `XSetSelectionOwner` asserts ownership through
the selection window, and `set_clipboard_owner(..., owner_client)` runs
(flushing both queues for the selection). -/
def vdagent_x11_clipboard_grab (st : X11) (sel : Nat) (types : List Nat) :
    X11 × List Output :=
  match vdagent_x11_get_clipboard_atom sel with
  | Option.none => (st, [])
  | some clip =>
    let st1 := { st with agent_types := upd st.agent_types sel (types.take 256) }
    let p := vdagent_x11_set_clipboard_owner st1 sel Owner.client
    (p.1, Output.setSelectionOwner clip selection_window :: p.2)

/-- `vdagent_x11_clipboard_release`: the daemon releases its grab.
Invalid selections and releases while not owning the client clipboard are
dropped; otherwise the selection owner is set to `None` (the resulting
XFixes event, processed separately, performs the state transition). -/
def vdagent_x11_clipboard_release (st : X11) (sel : Nat) : X11 × List Output :=
  match vdagent_x11_get_clipboard_atom sel with
  | Option.none => (st, [])
  | some clip =>
    if st.clipboard_owner sel ≠ Owner.client then (st, [])
    else (st, [Output.setSelectionOwner clip 0])

/-! ### vdagent_x11_handle_targets_notify -/

/-- `atom_lists_overlap`: the first atom of `atoms1` (in order) also
occurring in `atoms2`, else 0. -/
def atom_lists_overlap (atoms1 atoms2 : List Atom) : Atom :=
  match atoms1 with
  | [] => 0
  | a :: rest =>
    if atoms2.contains a then a else atom_lists_overlap rest atoms2

/-- The recording loop of `vdagent_x11_handle_targets_notify`: for each
catalog template in declared order, the first of its atoms advertised by
the owner is recorded with the template's type; recording stops once 256
pairs are recorded. -/
def matchedCatalogGo (atoms : List Atom) (count : Nat) :
    List FormatInfo → List (Nat × Atom)
  | [] => []
  | f :: rest =>
    let a := atom_lists_overlap f.atoms atoms
    if a ≠ 0 then
      if count + 1 = 256 then [(f.type, a)]
      else (f.type, a) :: matchedCatalogGo atoms (count + 1) rest
    else matchedCatalogGo atoms count rest

def matchedCatalog (atoms : List Atom) : List (Nat × Atom) :=
  matchedCatalogGo atoms 0 clipboard_formats

/-- `vdagent_x11_handle_targets_notify`.  A reply with no conversion
outstanding (`expected_targets_notifies = 0`) is dropped; with more than
one outstanding, the counter is decremented and the reply dropped without
reading the property.  Only the last outstanding reply is honoured:
`readResult` is the outcome of `vdagent_x11_get_selection` on the TARGETS
property (`none` = refusal/format error), and the `readProp` output marks
that the property was read.  A non-empty intersection with the catalog
sends `CLIPBOARD_GRAB` with the matched types and makes the guest the
owner. -/
def vdagent_x11_handle_targets_notify (st : X11) (sel : Nat)
    (readResult : Option (List Atom)) : X11 × List Output :=
  let c := st.expected_targets_notifies sel
  if c = 0 then (st, [])
  else
    let st1 := { st with
      expected_targets_notifies := upd st.expected_targets_notifies sel (c - 1) }
    if c - 1 ≠ 0 then (st1, [])
    else
      match readResult with
      | Option.none => (st1, [Output.readProp])
      | some atoms =>
        let cat := matchedCatalog atoms
        let st2 := { st1 with
          agent_types := upd st1.agent_types sel (cat.map Prod.fst)
          x11_targets := upd st1.x11_targets sel (cat.map Prod.snd) }
        if cat.length ≠ 0 then
          let p := vdagent_x11_set_clipboard_owner st2 sel Owner.guest
          (p.1, Output.readProp ::
                Output.daemon (.clipboardGrab sel (cat.map Prod.fst)) :: p.2)
        else (st2, [Output.readProp])

/-- A sequence of TARGETS SelectionNotify replies arriving one after the
other, with the atom lists each reply's property would hold. -/
def applyTargetsReplies (st : X11) (sel : Nat) :
    List (List Atom) → X11 × List Output
  | [] => (st, [])
  | a :: rest =>
    let p := vdagent_x11_handle_targets_notify st sel (some a)
    let q := applyTargetsReplies p.1 sel rest
    (q.1, p.2 ++ q.2)

/-! ### Chunk decomposition used to state the INCR round-trip -/

/-- Splits a list into consecutive chunks of `k` elements (the last chunk
possibly shorter); structurally recursive on a fuel that any bound of at
least `l.length` satisfies when `1 ≤ k`. -/
def chunksOfF {α : Type} (k : Nat) : Nat → List α → List (List α)
  | _, [] => []
  | 0, _ :: _ => []
  | fuel + 1, a :: t => (a :: t).take k :: chunksOfF k fuel ((a :: t).drop k)

def chunksOf {α : Type} (k : Nat) (l : List α) : List (List α) :=
  chunksOfF k l.length l

/-! ### Statement-level definitions for the claims -/

/-- Picks out the `CLIPBOARD_GRAB` messages among the outputs. -/
def isGrabOut : Output → Bool
  | .daemon (.clipboardGrab _ _) => true
  | _ => false

/-- The flush traffic `vdagent_x11_set_clipboard_owner` produces for a
selection: one `SelectionNotify(property=None)` per queued selection
request of that selection, then one `CLIPBOARD_DATA(sel, NONE)` per
queued conversion request of that selection, in queue order. -/
def flushOutsOf (st : X11) (sel : Nat) : List Output :=
  (st.selection_req.filter (fun r => r.selection == sel)).map notifyNoneOf ++
  (st.conversion_req.filter (fun c => c.selection == sel)).map
    (fun _ => dataNoneMsg sel)

/-- The `CLIPBOARD_RELEASE` an ownership change sends: only when the guest
owned the selection and the new owner is none. -/
def releaseOutsOf (st : X11) (sel : Nat) (nw : Owner) : List Output :=
  if nw = Owner.none ∧ st.clipboard_owner sel = Owner.guest then
    [Output.daemon (.clipboardRelease sel)]
  else []

/-- Conclusion of claim C2 (outbound round trip for a payload `data` of
type `T` while the head selection request `req` awaits it). -/
def C2concl (st : X11) (req : SelReq) (T : Nat) (data : List Nat) : Prop :=
  let prop := if req.property = 0 then req.target else req.property
  (data.length ≤ st.max_prop_size →
    vdagent_x11_clipboard_data st req.selection T data =
      some ({ st with selection_req := [] },
        [Output.changeProperty req.requestor prop req.target 8 data,
         Output.sendSelectionNotify req.requestor prop req.target])) ∧
  (st.max_prop_size < data.length →
    vdagent_x11_clipboard_data st req.selection T data =
      some ({ st with selection_req_data := some data,
                      selection_req_data_pos := 0,
                      selection_req_atom := prop },
        [Output.selectInput req.requestor,
         Output.changeProperty req.requestor prop incr_atom 32 [data.length],
         Output.sendSelectionNotify req.requestor prop req.target]) ∧
    incrPump { st with selection_req_data := some data,
                       selection_req_data_pos := 0,
                       selection_req_atom := prop } (data.length + 1) =
      some ({ st with selection_req := [], selection_req_data := Option.none,
                      selection_req_data_pos := 0, selection_req_atom := 0 },
        (chunksOf st.max_prop_size data).map
          (fun c => Output.changeProperty req.requestor prop req.target 8 c)
          ++ [Output.changeProperty req.requestor prop req.target 8 []]) ∧
    (∀ c ∈ chunksOf st.max_prop_size data, c.length ≤ st.max_prop_size) ∧
    (chunksOf st.max_prop_size data).flatten = data)

/-- Conclusion of claim C3 as the code has it: a request slot allocation
failure only logs; nothing is sent and the state is unchanged, both for
the daemon's `CLIPBOARD_REQUEST` and for an X11 `SelectionRequest`. -/
def C3concl (st : X11) (sel typ selAtom requestor target property : Nat) :
    Prop :=
  ((sel = SEL_CLIPBOARD ∨ sel = SEL_PRIMARY) →
   st.clipboard_owner sel = Owner.guest →
   vdagent_x11_type_to_target st sel typ ≠ 0 →
   vdagent_x11_clipboard_request st sel typ false = (st, [])) ∧
  ((selAtom = clipboard_atom ∨ selAtom = clipboard_primary_atom) →
   handle_selection_request_event st selAtom requestor target property false =
     some (st, []))

/-- Conclusion of claim C4: what one `vdagent_x11_set_clipboard_owner`
call guarantees about flushing the queues of the given selection. -/
def C4concl (st : X11) (sel : Nat) (nw : Owner) : Prop :=
  let p := vdagent_x11_set_clipboard_owner st sel nw
  ((st.clipboard_owner sel = Owner.guest ∧ nw ≠ Owner.guest) →
    p.2 = flushOutsOf st sel ++ releaseOutsOf st sel nw ∧
    p.1.conversion_req = st.conversion_req.filter (fun c => c.selection != sel) ∧
    ((∃ c rest, st.conversion_req = c :: rest ∧ c.selection = sel) →
      p.1.clipboard_data_size = 0 ∧ p.1.expect_property_notify = false)) ∧
  ((st.clipboard_owner sel = Owner.client ∧ nw ≠ Owner.client) →
    p.2 = flushOutsOf st sel ++ releaseOutsOf st sel nw ∧
    p.1.selection_req = st.selection_req.filter (fun r => r.selection != sel) ∧
    ((∃ r rest, st.selection_req = r :: rest ∧ r.selection = sel) →
      p.1.selection_req_data = Option.none)) ∧
  (∀ s, s ≠ sel →
    p.1.clipboard_owner s = st.clipboard_owner s ∧
    p.1.agent_types s = st.agent_types s ∧
    p.1.x11_targets s = st.x11_targets s ∧
    p.1.expected_targets_notifies s = st.expected_targets_notifies s)

/-- Conclusion of claim C5 as the code has it: `CLIPBOARD_DATA` while a
previous INCR send is in flight, or with no outstanding selection
request, is discarded silently; only a mismatch with the active request
is answered with `SelectionNotify(property=None)` and advances. -/
def C5concl (st : X11) (sel typ : Nat) (d : List Nat) (req : SelReq)
    (rest : List SelReq) (T' : Nat) : Prop :=
  (st.selection_req_data.isSome →
    vdagent_x11_clipboard_data st sel typ d = some (st, [])) ∧
  (st.selection_req_data = Option.none → st.selection_req = [] →
    vdagent_x11_clipboard_data st sel typ d = some (st, [])) ∧
  (st.selection_req_data = Option.none → st.selection_req = req :: rest →
    vdagent_x11_target_to_type req.target = .found T' →
    (T' ≠ typ ∨ sel ≠ req.selection) →
    vdagent_x11_clipboard_data st sel typ d =
      (processSelReqs st rest).map (fun p => (p.1, notifyNoneOf req :: p.2)))

/-- Conclusion of claim C6: what an honoured TARGETS reply does with the
advertised atom list. -/
def C6concl (st : X11) (sel : Nat) (atoms : List Atom) : Prop :=
  let cat := matchedCatalog atoms
  let p := vdagent_x11_handle_targets_notify st sel (some atoms)
  cat = clipboard_formats.filterMap
      (fun f => (f.atoms.find? (fun a => atoms.contains a)).map
        (fun a => (f.type, a))) ∧
  p.1.agent_types sel = cat.map Prod.fst ∧
  p.1.x11_targets sel = cat.map Prod.snd ∧
  (cat ≠ [] →
    p.2.filter isGrabOut =
      [Output.daemon (.clipboardGrab sel (cat.map Prod.fst))] ∧
    p.1.clipboard_owner sel = Owner.guest) ∧
  (cat = [] →
    p.2 = [Output.readProp] ∧
    p.1.clipboard_owner sel = st.clipboard_owner sel)

/-- Conclusion of claim C7: with `n` TARGETS conversions outstanding, the
first `n - 1` replies are dropped without reading the property or
touching the catalog, and the sequence as a whole behaves as the last
reply handled with one conversion outstanding. -/
def C7concl (st : X11) (sel : Nat) (replies : List (List Atom)) (n : Nat) :
    Prop :=
  let firstPart := applyTargetsReplies st sel (replies.take (n - 1))
  firstPart.2 = [] ∧
  firstPart.1.agent_types sel = st.agent_types sel ∧
  firstPart.1.x11_targets sel = st.x11_targets sel ∧
  firstPart.1.clipboard_owner sel = st.clipboard_owner sel ∧
  firstPart.1.expected_targets_notifies sel = 1 ∧
  applyTargetsReplies st sel replies =
    vdagent_x11_handle_targets_notify firstPart.1 sel
      (some (replies.getLastD []))

/-- Conclusion of claim C8 as the code has it: `CLIPBOARD_REQUEST`, `GRAB`
and `RELEASE` naming an unsupported selection are rejected with the state
unchanged (the request answered `CLIPBOARD_DATA(sel, NONE)`), but
`CLIPBOARD_DATA` is not validated against the supported set: without an
active request it is discarded, and against an active request it takes
the mismatch path, sending `SelectionNotify(property=None)` and
advancing the queue. -/
def C8concl (st : X11) (sel typ : Nat) (types d : List Nat) (ok : Bool)
    (req : SelReq) (rest : List SelReq) (T' : Nat) : Prop :=
  vdagent_x11_clipboard_request st sel typ ok = (st, [dataNoneMsg sel]) ∧
  vdagent_x11_clipboard_grab st sel types = (st, []) ∧
  vdagent_x11_clipboard_release st sel = (st, []) ∧
  (st.selection_req_data = Option.none → st.selection_req = [] →
    vdagent_x11_clipboard_data st sel typ d = some (st, [])) ∧
  (st.selection_req_data = Option.none → st.selection_req = req :: rest →
    (req.selection = SEL_CLIPBOARD ∨ req.selection = SEL_PRIMARY) →
    vdagent_x11_target_to_type req.target = .found T' →
    vdagent_x11_clipboard_data st sel typ d =
      (processSelReqs st rest).map (fun p => (p.1, notifyNoneOf req :: p.2)))

/-- Conclusion of claim C9: the queue flush happens on every
`set_clipboard_owner` call, and both the daemon-grab path and the
targets-reply path produce the refusals before the new owner is in
place. -/
def C9concl (st : X11) (sel : Nat) (nw : Owner) (types : List Nat)
    (atoms : List Atom) : Prop :=
  (vdagent_x11_set_clipboard_owner st sel nw).2 =
    flushOutsOf st sel ++ releaseOutsOf st sel nw ∧
  (vdagent_x11_set_clipboard_owner st sel nw).1.selection_req =
    st.selection_req.filter (fun r => r.selection != sel) ∧
  (vdagent_x11_set_clipboard_owner st sel nw).1.conversion_req =
    st.conversion_req.filter (fun c => c.selection != sel) ∧
  (∀ clip, vdagent_x11_get_clipboard_atom sel = some clip →
    (vdagent_x11_clipboard_grab st sel types).2 =
      Output.setSelectionOwner clip selection_window :: flushOutsOf st sel ∧
    (vdagent_x11_clipboard_grab st sel types).1.clipboard_owner sel =
      Owner.client ∧
    (vdagent_x11_clipboard_grab st sel types).1.selection_req =
      st.selection_req.filter (fun r => r.selection != sel) ∧
    (vdagent_x11_clipboard_grab st sel types).1.conversion_req =
      st.conversion_req.filter (fun c => c.selection != sel)) ∧
  (st.expected_targets_notifies sel = 1 → matchedCatalog atoms ≠ [] →
    (vdagent_x11_handle_targets_notify st sel (some atoms)).2 =
      Output.readProp ::
      Output.daemon (.clipboardGrab sel ((matchedCatalog atoms).map Prod.fst)) ::
      flushOutsOf st sel ∧
    (vdagent_x11_handle_targets_notify st sel (some atoms)).1.clipboard_owner
      sel = Owner.guest)

/-- Conclusion of claim C10: when the selection request carries
`property = None` (0), both the TARGETS reply and the data replies use
the request's target atom as the property written and reported. -/
def C10concl (st1 : X11) (req1 : SelReq) (rest1 : List SelReq)
    (st2 : X11) (req2 : SelReq) (T : Nat) (d : List Nat) : Prop :=
  (vdagent_x11_handle_selection_request st1 =
    (processSelReqs st1 rest1).map (fun p =>
      (p.1, Output.changeProperty req1.requestor req1.target xaAtom 32
              (sendTargetsList (st1.agent_types req1.selection)) ::
            Output.sendSelectionNotify req1.requestor req1.target
              req1.target :: p.2))) ∧
  (d.length ≤ st2.max_prop_size →
    vdagent_x11_clipboard_data st2 req2.selection T d =
      some ({ st2 with selection_req := [] },
        [Output.changeProperty req2.requestor req2.target req2.target 8 d,
         Output.sendSelectionNotify req2.requestor req2.target
           req2.target])) ∧
  (st2.max_prop_size < d.length →
    vdagent_x11_clipboard_data st2 req2.selection T d =
      some ({ st2 with selection_req_data := some d,
                       selection_req_data_pos := 0,
                       selection_req_atom := req2.target },
        [Output.selectInput req2.requestor,
         Output.changeProperty req2.requestor req2.target incr_atom 32
           [d.length],
         Output.sendSelectionNotify req2.requestor req2.target req2.target]))

/-! ### Concrete states used by the witnesses and counterexamples -/

def cBase : X11 :=
  { max_prop_size := 4
    expected_targets_notifies := fun _ => 0
    clipboard_owner := fun _ => Owner.none
    agent_types := fun _ => []
    x11_targets := fun _ => []
    conversion_req := []
    expect_property_notify := false
    clipboard_data_size := 0
    selection_req := []
    selection_req_data := Option.none
    selection_req_data_pos := 0
    selection_req_atom := 0 }

/-- A queued X11 request from window 7 for UTF8_STRING on CLIPBOARD with
property atom 9. -/
def cReq : SelReq := ⟨7, SEL_CLIPBOARD, atomUTF8STRING, 9⟩

/-- Like `cReq` but with `property = None`. -/
def cReqNoProp : SelReq := ⟨7, SEL_CLIPBOARD, atomUTF8STRING, 0⟩

/-- A queued TARGETS request with `property = None`. -/
def cReqTargets : SelReq := ⟨7, SEL_CLIPBOARD, targets_atom, 0⟩

/-- Client owns CLIPBOARD, one selection request queued. -/
def cStClient : X11 :=
  { cBase with
      selection_req := [cReq]
      clipboard_owner := upd cBase.clipboard_owner SEL_CLIPBOARD Owner.client }

/-- Client owns CLIPBOARD, one `property = None` request queued. -/
def cStClientNoProp : X11 :=
  { cBase with
      selection_req := [cReqNoProp]
      clipboard_owner := upd cBase.clipboard_owner SEL_CLIPBOARD Owner.client
      agent_types := upd cBase.agent_types SEL_CLIPBOARD
        [VD_AGENT_CLIPBOARD_UTF8_TEXT] }

/-- Like `cStClientNoProp` but with the TARGETS request queued. -/
def cStClientTargets : X11 :=
  { cStClientNoProp with selection_req := [cReqTargets] }

/-- Guest owns CLIPBOARD with UTF8_TEXT advertised. -/
def cStGuest : X11 :=
  { cBase with
      clipboard_owner := upd cBase.clipboard_owner SEL_CLIPBOARD Owner.guest
      agent_types := upd cBase.agent_types SEL_CLIPBOARD
        [VD_AGENT_CLIPBOARD_UTF8_TEXT]
      x11_targets := upd cBase.x11_targets SEL_CLIPBOARD [atomUTF8STRING] }

/-- Guest owns CLIPBOARD; one request queued per selection in each queue. -/
def cStBusy : X11 :=
  { cStGuest with
      selection_req := [cReq, ⟨8, SEL_PRIMARY, atomImagePng, 3⟩]
      conversion_req := [⟨atomUTF8STRING, SEL_CLIPBOARD⟩,
                         ⟨atomImagePng, SEL_PRIMARY⟩] }

/-- Two TARGETS conversions outstanding on PRIMARY. -/
def cStTwoNotifies : X11 :=
  { cBase with
      expected_targets_notifies :=
        upd cBase.expected_targets_notifies SEL_PRIMARY 2 }

/-- One TARGETS conversion outstanding on PRIMARY. -/
def cStOneNotify : X11 :=
  { cBase with
      expected_targets_notifies :=
        upd cBase.expected_targets_notifies SEL_PRIMARY 1 }

/-! ### Helper lemmas -/

theorem upd_self {α : Type} (f : Nat → α) (i : Nat) (v : α) :
    upd f i v i = v := by
  simp [upd]

theorem upd_ne {α : Type} (f : Nat → α) {i j : Nat} (v : α) (h : j ≠ i) :
    upd f i v j = f j := by
  simp [upd, h]

theorem flushSelQueue_eq (sel : Nat) (q : List SelReq) :
    flushSelQueue sel q =
      (q.filter (fun r => r.selection != sel),
       (q.filter (fun r => r.selection == sel)).map notifyNoneOf) := by
  induction q with
  | nil => rfl
  | cons r rest ih =>
    by_cases h : r.selection = sel <;>
      simp [flushSelQueue, ih, h, List.filter_cons]

theorem flushConvQueue_eq (sel : Nat) (q : List ConvReq) :
    flushConvQueue sel q =
      (q.filter (fun c => c.selection != sel),
       (q.filter (fun c => c.selection == sel)).map
         (fun _ => dataNoneMsg sel)) := by
  induction q with
  | nil => rfl
  | cons c rest ih =>
    by_cases h : c.selection = sel <;>
      simp [flushConvQueue, ih, h, List.filter_cons]

theorem sco_outs (st : X11) (sel : Nat) (nw : Owner) :
    (vdagent_x11_set_clipboard_owner st sel nw).2 =
      flushOutsOf st sel ++ releaseOutsOf st sel nw := by
  simp [vdagent_x11_set_clipboard_owner, flushSelQueue_eq, flushConvQueue_eq,
        flushOutsOf, releaseOutsOf]

theorem sco_selection_req (st : X11) (sel : Nat) (nw : Owner) :
    (vdagent_x11_set_clipboard_owner st sel nw).1.selection_req =
      st.selection_req.filter (fun r => r.selection != sel) := by
  simp [vdagent_x11_set_clipboard_owner, flushSelQueue_eq]

theorem sco_conversion_req (st : X11) (sel : Nat) (nw : Owner) :
    (vdagent_x11_set_clipboard_owner st sel nw).1.conversion_req =
      st.conversion_req.filter (fun c => c.selection != sel) := by
  simp [vdagent_x11_set_clipboard_owner, flushConvQueue_eq]

theorem sco_owner_self (st : X11) (sel : Nat) (nw : Owner) :
    (vdagent_x11_set_clipboard_owner st sel nw).1.clipboard_owner sel = nw := by
  simp [vdagent_x11_set_clipboard_owner, upd_self]

theorem get_clipboard_atom_invalid {sel : Nat}
    (h : ¬(sel = SEL_CLIPBOARD ∨ sel = SEL_PRIMARY)) :
    vdagent_x11_get_clipboard_atom sel = Option.none := by
  push_neg at h
  simp [vdagent_x11_get_clipboard_atom, h.1, h.2]

/-! ### Claim C1 -/

/-- C1: target classification is claimed to be a pure lookup over the
static catalog: every atom in a template's list maps to that template's
type, every other atom to NONE.  The code violates this: the inner loop
of `vdagent_x11_target_to_type` increments the outer index, so only the
first atom of each template is ever compared and the run walks off the
end of the format array (undefined behaviour) for the second atom of the
UTF8_TEXT template, `text/plain;charset=UTF-8`, as well as for an atom
(999) in no template's list — where the claim requires NONE.  The
spec-modelled `classify_target_spec`, per the claim, answers UTF8_TEXT
resp. NONE on the same inputs. -/
theorem C1_target_classification :
    vdagent_x11_target_to_type atomTextPlainUtf8U = TTTResult.oob ∧
    classify_target_spec atomTextPlainUtf8U =
      some VD_AGENT_CLIPBOARD_UTF8_TEXT ∧
    vdagent_x11_target_to_type 999 = TTTResult.oob ∧
    classify_target_spec 999 = Option.none ∧
    vdagent_x11_target_to_type atomUTF8STRING =
      TTTResult.found VD_AGENT_CLIPBOARD_UTF8_TEXT := by
  decide

/-! ### Claim C3 -/

/-- C3 counterexample: in a guest-owned state where a daemon
`CLIPBOARD_REQUEST(CLIPBOARD, UTF8_TEXT)` passes every validation, a
request-slot allocation failure produces no output at all — in
particular, the `CLIPBOARD_DATA(selection, NONE)` reply the claim
requires is not posted. -/
theorem C3_oom_counterexample :
    vdagent_x11_clipboard_request cStGuest SEL_CLIPBOARD
        VD_AGENT_CLIPBOARD_UTF8_TEXT false = (cStGuest, []) ∧
    ¬ dataNoneMsg SEL_CLIPBOARD ∈
        (vdagent_x11_clipboard_request cStGuest SEL_CLIPBOARD
          VD_AGENT_CLIPBOARD_UTF8_TEXT false).2 := by
  refine ⟨rfl, ?_⟩
  intro h
  rw [show (vdagent_x11_clipboard_request cStGuest SEL_CLIPBOARD
      VD_AGENT_CLIPBOARD_UTF8_TEXT false).2 = [] from rfl] at h
  exact List.not_mem_nil _ h

/-- C3 (amended): on out-of-memory while enqueuing a request slot, the
request is dropped with only a log message and the loop continues; no
terminal failure reply is produced — neither a `CLIPBOARD_DATA(sel,
NONE)` for an inbound `CLIPBOARD_REQUEST` nor a `SelectionNotify` with
`property = None` for an X11 `SelectionRequest` — and the state is
unchanged. -/
theorem C3_oom_dropped (st : X11) (sel typ selAtom requestor target property : Nat)
    (h1 : sel = SEL_CLIPBOARD ∨ sel = SEL_PRIMARY)
    (h2 : st.clipboard_owner sel = Owner.guest)
    (h3 : vdagent_x11_type_to_target st sel typ ≠ 0)
    (h4 : selAtom = clipboard_atom ∨ selAtom = clipboard_primary_atom) :
    vdagent_x11_clipboard_request st sel typ false = (st, []) ∧
    handle_selection_request_event st selAtom requestor target property false =
      some (st, []) := by
  constructor
  · rcases h1 with rfl | rfl <;>
      · simp only [SEL_CLIPBOARD, SEL_PRIMARY] at h2 h3
        simp [vdagent_x11_clipboard_request, vdagent_x11_get_clipboard_atom,
              SEL_CLIPBOARD, SEL_PRIMARY, h2, h3]
  · rcases h4 with rfl | rfl <;>
      · simp only [handle_selection_request_event]
        norm_num [clipboard_atom, clipboard_primary_atom]

theorem C3_witness :
    vdagent_x11_clipboard_request cStGuest SEL_CLIPBOARD
        VD_AGENT_CLIPBOARD_UTF8_TEXT false = (cStGuest, []) ∧
    handle_selection_request_event cStGuest clipboard_atom 7 atomUTF8STRING 9
        false = some (cStGuest, []) :=
  C3_oom_dropped cStGuest SEL_CLIPBOARD VD_AGENT_CLIPBOARD_UTF8_TEXT
    clipboard_atom 7 atomUTF8STRING 9 (Or.inl rfl) (by decide) (by decide)
    (Or.inl rfl)

/-! ### Claim C5 -/

/-- C5 counterexample: a `CLIPBOARD_DATA` arriving with no active
outbound request is discarded with no output at all — the single
`SelectionNotify(property=None)` the claim requires in this case is not
sent, and there is no queue to advance. -/
theorem C5_dispatch_counterexample :
    vdagent_x11_clipboard_data cBase SEL_CLIPBOARD
      VD_AGENT_CLIPBOARD_UTF8_TEXT [1, 2, 3] = some (cBase, []) := by
  rfl

/-- C5 (amended): `CLIPBOARD_DATA` arriving while previous data is still
being served via INCR, or with no active outbound request, is discarded
silently (no `SelectionNotify`, no queue advance); only a payload whose
`(selection, type)` does not match the active request is answered with a
single `SelectionNotify(property=None)` for that request, after which
the queue advances. -/
theorem C5_data_dispatch (st : X11) (sel typ : Nat) (d : List Nat)
    (req : SelReq) (rest : List SelReq) (T' : Nat) :
    C5concl st sel typ d req rest T' := by
  refine ⟨fun h => ?_, fun hb hq => ?_, fun hb hq ht hmis => ?_⟩
  · simp [vdagent_x11_clipboard_data, h]
  · simp [vdagent_x11_clipboard_data, hb, hq]
  · simp only [vdagent_x11_clipboard_data, hb, hq, ht, Option.isSome_none,
               Bool.false_eq_true, if_false]
    rw [if_pos hmis]

theorem C5_witness : C5concl cStClient SEL_PRIMARY 1 [5] cReq [] 1 :=
  C5_data_dispatch cStClient SEL_PRIMARY 1 [5] cReq [] 1

/-! ### Claim C8 -/

/-- C8 counterexample: a `CLIPBOARD_DATA` naming selection SECONDARY (2)
arriving while an outbound request for CLIPBOARD is active is not
rejected without effect: the code takes the mismatch path, makes an X11
call (`XSendEvent` of a `SelectionNotify`) and advances the queue,
changing the state of a supported selection's queue — where the claim
requires no X11 call and an unchanged state. -/
theorem C8_secondary_counterexample :
    vdagent_x11_clipboard_data cStClient SEL_SECONDARY
        VD_AGENT_CLIPBOARD_UTF8_TEXT [1] =
      some ({ cStClient with selection_req := [] },
        [Output.sendSelectionNotify 7 0 atomUTF8STRING]) ∧
    cStClient.selection_req ≠ [] := by
  exact ⟨rfl, by decide⟩

/-- C8 (amended): daemon messages naming a selection other than CLIPBOARD
(0) and PRIMARY (1) are rejected by `CLIPBOARD_REQUEST` (answered with
`CLIPBOARD_DATA(selection, NONE)`, state unchanged), `CLIPBOARD_GRAB`
and `CLIPBOARD_RELEASE` (no output, state unchanged); but
`CLIPBOARD_DATA` performs no selection validation: with no active
request it is discarded, and against an active request it takes the
ordinary mismatch path, sending a `SelectionNotify(property=None)` and
advancing the queue. -/
theorem C8_secondary_handling (st : X11) (sel typ : Nat)
    (types d : List Nat) (ok : Bool) (req : SelReq) (rest : List SelReq)
    (T' : Nat) (hsel : ¬(sel = SEL_CLIPBOARD ∨ sel = SEL_PRIMARY)) :
    C8concl st sel typ types d ok req rest T' := by
  have hatom := get_clipboard_atom_invalid hsel
  refine ⟨?_, ?_, ?_, fun hb hq => ?_, fun hb hq hreqsel ht => ?_⟩
  · simp [vdagent_x11_clipboard_request, hatom]
  · simp [vdagent_x11_clipboard_grab, hatom]
  · simp [vdagent_x11_clipboard_release, hatom]
  · simp [vdagent_x11_clipboard_data, hb, hq]
  · have hne : sel ≠ req.selection := by
      rcases hreqsel with h | h <;> rw [h] <;> intro hc <;>
        exact hsel (by simp [hc])
    simp only [vdagent_x11_clipboard_data, hb, hq, ht, Option.isSome_none,
               Bool.false_eq_true, if_false]
    rw [if_pos (Or.inr hne)]

theorem C8_witness : C8concl cStClient SEL_SECONDARY 1 [1] [2] true cReq [] 1 :=
  C8_secondary_handling cStClient SEL_SECONDARY 1 [1] [2] true cReq [] 1
    (by decide)

/-! ### Claim C4 -/

/-- C4: whenever the owner of selection S transitions away from Guest,
every queued conversion (inbound) request for S is answered with
`CLIPBOARD_DATA(S, NONE)` and, when the active one was for S, the
inbound INCR state (`clipboard_data_size`, `expect_property_notify`) is
cleared; whenever the owner transitions away from Client, every queued
selection (outbound) request for S is refused with a
`SelectionNotify(property = None)` and, when the active one was for S,
the in-flight INCR send buffer is freed; requests and per-selection
state of the other selection are untouched. -/
theorem C4_ownership_flush (st : X11) (sel : Nat) (nw : Owner) :
    C4concl st sel nw := by
  refine ⟨fun _ => ⟨sco_outs st sel nw, sco_conversion_req st sel nw, ?_⟩,
          fun _ => ⟨sco_outs st sel nw, sco_selection_req st sel nw, ?_⟩,
          fun s hs => ?_⟩
  · rintro ⟨c, rest, hq, hcs⟩
    constructor <;>
      simp [vdagent_x11_set_clipboard_owner, hq, headMatchesConv, hcs]
  · rintro ⟨r, rest, hq, hrs⟩
    simp [vdagent_x11_set_clipboard_owner, hq, headMatchesSel, hrs]
  · by_cases hnw : nw = Owner.none <;>
      simp [vdagent_x11_set_clipboard_owner, hnw, upd_ne _ _ hs]

theorem C4_witness : C4concl cStBusy SEL_CLIPBOARD Owner.none :=
  C4_ownership_flush cStBusy SEL_CLIPBOARD Owner.none

/-! ### Claim C9 -/

/-- C9 (implicit): `vdagent_x11_set_clipboard_owner` flushes the queues
for the selection on every call, not only on transitions away from the
previous owner; both a daemon `CLIPBOARD_GRAB` (transition to Client)
and a successful targets reply (transition to Guest) first refuse every
queued outbound request for the selection with
`SelectionNotify(property = None)` and answer every queued inbound
request with `CLIPBOARD_DATA(S, NONE)`, before the new owner is in
place. -/
theorem C9_flush_every_call (st : X11) (sel : Nat) (nw : Owner)
    (types : List Nat) (atoms : List Atom) :
    C9concl st sel nw types atoms := by
  refine ⟨sco_outs st sel nw, sco_selection_req st sel nw,
          sco_conversion_req st sel nw, fun clip hclip => ?_,
          fun hc hcat => ?_⟩
  · refine ⟨?_, ?_, ?_, ?_⟩ <;>
      simp [vdagent_x11_clipboard_grab, hclip, sco_outs, sco_owner_self,
            sco_selection_req, sco_conversion_req, releaseOutsOf,
            flushOutsOf]
  · have hlen : (matchedCatalog atoms).length ≠ 0 := by
      simpa [List.length_eq_zero] using hcat
    constructor <;>
      simp [vdagent_x11_handle_targets_notify, hc, hlen, sco_outs,
            sco_owner_self, releaseOutsOf, flushOutsOf]

theorem C9_witness : C9concl cStBusy SEL_CLIPBOARD Owner.client [1] [] :=
  C9_flush_every_call cStBusy SEL_CLIPBOARD Owner.client [1] []

/-! ### Claim C6 -/

theorem atom_lists_overlap_eq (l1 l2 : List Atom) :
    atom_lists_overlap l1 l2 =
      (l1.find? (fun a => l2.contains a)).getD 0 := by
  induction l1 with
  | nil => rfl
  | cons a t ih =>
    by_cases h : a ∈ l2 <;>
      simp [atom_lists_overlap, List.find?_cons, h, ih]

theorem matchedCatalogGo_eq (atoms : List Atom) :
    ∀ (fmts : List FormatInfo) (count : Nat), count + fmts.length ≤ 255 →
      (∀ f ∈ fmts, ∀ a ∈ f.atoms, a ≠ 0) →
      matchedCatalogGo atoms count fmts =
        fmts.filterMap (fun f =>
          (f.atoms.find? (fun a => atoms.contains a)).map
            (fun a => (f.type, a))) := by
  intro fmts
  induction fmts with
  | nil => intro count _ _; rfl
  | cons f rest ih =>
    intro count hcount hnz
    have hrest : ∀ g ∈ rest, ∀ a ∈ g.atoms, a ≠ 0 :=
      fun g hg => hnz g (List.mem_cons_of_mem f hg)
    rcases hfind : f.atoms.find? (fun a => atoms.contains a) with _ | x
    · have hov : atom_lists_overlap f.atoms atoms = 0 := by
        rw [atom_lists_overlap_eq, hfind]; rfl
      simp only [matchedCatalogGo, hov, ne_eq, not_true_eq_false, if_false,
                 List.filterMap_cons, hfind, Option.map_none']
      exact ih count (by simp at hcount ⊢; omega) hrest
    · have hx : x ∈ f.atoms := List.mem_of_find?_eq_some hfind
      have hxnz : x ≠ 0 := hnz f (List.mem_cons_self f rest) x hx
      have hov : atom_lists_overlap f.atoms atoms = x := by
        rw [atom_lists_overlap_eq, hfind]; rfl
      have hcap : ¬(count + 1 = 256) := by simp at hcount; omega
      simp only [matchedCatalogGo, hov, ne_eq, hxnz, not_false_eq_true,
                 if_true, hcap, if_false, List.filterMap_cons, hfind,
                 Option.map_some']
      rw [ih (count + 1) (by simp at hcount ⊢; omega) hrest]

theorem matchedCatalog_eq (atoms : List Atom) :
    matchedCatalog atoms =
      clipboard_formats.filterMap (fun f =>
        (f.atoms.find? (fun a => atoms.contains a)).map
          (fun a => (f.type, a))) :=
  matchedCatalogGo_eq atoms clipboard_formats 0 (by decide) (by decide)

theorem filter_grab_flushOuts (st : X11) (sel : Nat) :
    (flushOutsOf st sel).filter isGrabOut = [] := by
  simp only [flushOutsOf, List.filter_append, List.append_eq_nil]
  constructor <;>
    · rw [List.filter_eq_nil_iff]
      rintro x hx
      rcases List.mem_map.mp hx with ⟨r, _, rfl⟩
      simp [notifyNoneOf, dataNoneMsg, isGrabOut]

theorem sco_agent_types (st : X11) (sel : Nat) {nw : Owner}
    (h : nw ≠ Owner.none) :
    (vdagent_x11_set_clipboard_owner st sel nw).1.agent_types =
      st.agent_types := by
  simp [vdagent_x11_set_clipboard_owner, h]

theorem sco_x11_targets (st : X11) (sel : Nat) {nw : Owner}
    (h : nw ≠ Owner.none) :
    (vdagent_x11_set_clipboard_owner st sel nw).1.x11_targets =
      st.x11_targets := by
  simp [vdagent_x11_set_clipboard_owner, h]

/-- C6: on a TARGETS SelectionNotify that is honoured (exactly one
conversion outstanding), the announced atom list is intersected with the
catalog in declared ClipboardType order, the first advertised atom of
each template winning; the (type, atom) pairs are recorded.  A non-empty
intersection sends `CLIPBOARD_GRAB` with exactly the matched type list
and makes the guest the owner; an empty one sends neither grab nor
release and leaves the owner unchanged. -/
theorem C6_targets_phase (st : X11) (sel : Nat) (atoms : List Atom)
    (hc : st.expected_targets_notifies sel = 1) :
    C6concl st sel atoms := by
  refine ⟨matchedCatalog_eq atoms, ?_, ?_, fun hne => ⟨?_, ?_⟩,
          fun hemp => ⟨?_, ?_⟩⟩ <;>
    by_cases hl : (matchedCatalog atoms).length = 0 <;>
      simp_all [C6concl, vdagent_x11_handle_targets_notify, hc, upd_self,
                sco_outs, sco_owner_self, sco_agent_types, sco_x11_targets,
                filter_grab_flushOuts, releaseOutsOf, isGrabOut,
                List.length_eq_zero]

theorem C6_witness : C6concl cStOneNotify SEL_PRIMARY [atomTextPlainUtf8L, 7] :=
  C6_targets_phase cStOneNotify SEL_PRIMARY [atomTextPlainUtf8L, 7] (by decide)

/-! ### Claim C7 -/

/-- A TARGETS reply arriving with at least two conversions outstanding is
dropped: the counter is decremented and nothing else happens — no
property read, no catalog change, no output. -/
theorem targets_notify_drop (st : X11) (sel : Nat) (a : List Atom)
    (h : 2 ≤ st.expected_targets_notifies sel) :
    vdagent_x11_handle_targets_notify st sel (some a) =
      ({ st with expected_targets_notifies := upd st.expected_targets_notifies sel (st.expected_targets_notifies sel - 1) }, []) := by
  have h0 : ¬(st.expected_targets_notifies sel = 0) := by omega
  have h1 : st.expected_targets_notifies sel - 1 ≠ 0 := by omega
  simp [vdagent_x11_handle_targets_notify, h0, h1]

theorem getLastD_default_irrel {α : Type} {l : List α} (h : l ≠ [])
    (d1 d2 : α) : l.getLastD d1 = l.getLastD d2 := by
  cases l with
  | nil => exact absurd rfl h
  | cons a t => rw [List.getLastD_cons, List.getLastD_cons]

/-- C7: if the pending targets-notify counter is `n ≥ 1` and `n` TARGETS
replies arrive, the first `n - 1` are dropped without reading the
property or touching the catalog, and the sequence as a whole behaves as
the `n`-th reply handled with the counter at 1. -/
theorem C7_targets_staleness (st : X11) (sel : Nat)
    (replies : List (List Atom)) (n : Nat)
    (hc : st.expected_targets_notifies sel = n)
    (hl : replies.length = n) (h1 : 1 ≤ n) :
    C7concl st sel replies n := by
  induction replies generalizing st n with
  | nil => exact absurd (hl ▸ h1) (by simp)
  | cons a rest ih =>
    by_cases hrest : rest = []
    · subst hrest
      have hn : n = 1 := by simpa using hl.symm
      subst hn
      refine ⟨rfl, rfl, rfl, rfl, hc, ?_⟩
      show applyTargetsReplies st sel [a] =
        vdagent_x11_handle_targets_notify st sel (some ([a].getLastD []))
      simp [applyTargetsReplies, List.getLastD_cons]
    · have hn2 : 2 ≤ n := by
        rw [← hl]
        cases rest with
        | nil => exact absurd rfl hrest
        | cons b t => simp only [List.length_cons]; omega
      have hdrop := targets_notify_drop st sel a (hc ▸ hn2)
      set st1 : X11 := { st with expected_targets_notifies := upd st.expected_targets_notifies sel (st.expected_targets_notifies sel - 1) } with hst1
      have hc1 : st1.expected_targets_notifies sel = n - 1 := by
        simp [hst1, upd_self, hc]
      have hl1 : rest.length = n - 1 := by
        have := hl
        simp at this
        omega
      have h11 : 1 ≤ n - 1 := by omega
      obtain ⟨ihA, ihB, ihC, ihD, ihE, ihF⟩ := ih st1 (n - 1) hc1 hl1 h11
      obtain ⟨k, hk⟩ : ∃ k, n - 1 = k + 1 := ⟨n - 2, by omega⟩
      have htake : (a :: rest).take (n - 1) = a :: rest.take (n - 2) := by
        rw [hk]
        simp [List.take_cons]
        congr 1
        omega
      have hfp :
          applyTargetsReplies st sel ((a :: rest).take (n - 1)) =
            applyTargetsReplies st1 sel (rest.take ((n - 1) - 1)) := by
        rw [htake]
        show (let p := vdagent_x11_handle_targets_notify st sel (some a)
              let q := applyTargetsReplies p.1 sel (rest.take (n - 2))
              (q.1, p.2 ++ q.2)) = _
        rw [hdrop]
        simp only []
        have h2 : (n - 1) - 1 = n - 2 := by omega
        rw [h2]
        simp
      refine ⟨?_, ?_, ?_, ?_, ?_, ?_⟩
      · rw [hfp]; exact ihA
      · rw [hfp]; exact ihB
      · rw [hfp]; exact ihC
      · rw [hfp]; exact ihD
      · rw [hfp]; exact ihE
      · have hall :
            applyTargetsReplies st sel (a :: rest) =
              applyTargetsReplies st1 sel rest := by
          show (let p := vdagent_x11_handle_targets_notify st sel (some a)
                let q := applyTargetsReplies p.1 sel rest
                (q.1, p.2 ++ q.2)) = _
          rw [hdrop]
          simp only [List.nil_append]
        rw [hall, hfp, ihF]
        congr 1
        rw [List.getLastD_cons]
        exact congrArg some (getLastD_default_irrel hrest [] a)

theorem C7_witness :
    C7concl cStTwoNotifies SEL_PRIMARY [[atomUTF8STRING], [atomImagePng]] 2 :=
  C7_targets_staleness cStTwoNotifies SEL_PRIMARY
    [[atomUTF8STRING], [atomImagePng]] 2 (by decide) (by decide) (by decide)

/-! ### Claim C2 -/

theorem chunksOfF_fuel {α : Type} (k : Nat) (hk : 1 ≤ k) :
    ∀ (fuel : Nat) (l : List α), l.length ≤ fuel →
      chunksOfF k fuel l = chunksOf k l := by
  intro fuel
  induction fuel using Nat.strong_induction_on with
  | _ fuel ih =>
    intro l hl
    match fuel, l with
    | 0, [] => rfl
    | f + 1, [] => rfl
    | 0, a :: t => simp at hl
    | f + 1, a :: t =>
      show (a :: t).take k :: chunksOfF k f ((a :: t).drop k) =
        chunksOf k (a :: t)
      have hlen : ((a :: t).drop k).length = t.length + 1 - k := by
        simp [List.length_drop]
      have htl : t.length ≤ f := by simpa using hl
      rw [ih f (by omega) _ (by omega)]
      show _ = chunksOfF k (t.length + 1) (a :: t)
      show _ = (a :: t).take k :: chunksOfF k t.length ((a :: t).drop k)
      rw [ih t.length (by omega) _ (by omega)]

theorem chunksOf_cons {α : Type} (k : Nat) (hk : 1 ≤ k) (a : α)
    (t : List α) :
    chunksOf k (a :: t) =
      (a :: t).take k :: chunksOf k ((a :: t).drop k) := by
  show chunksOfF k (t.length + 1) (a :: t) = _
  show (a :: t).take k :: chunksOfF k t.length ((a :: t).drop k) = _
  rw [chunksOfF_fuel k hk t.length _ (by simp [List.length_drop]; omega)]

theorem chunksOf_flatten {α : Type} (k : Nat) (hk : 1 ≤ k) (l : List α) :
    (chunksOf k l).flatten = l := by
  have main : ∀ (n : Nat) (l : List α), l.length ≤ n →
      (chunksOf k l).flatten = l := by
    intro n
    induction n with
    | zero =>
      intro l h
      have : l = [] := List.eq_nil_of_length_eq_zero (by omega)
      subst this; rfl
    | succ n ihn =>
      intro l hl
      cases l with
      | nil => rfl
      | cons a t =>
        rw [chunksOf_cons k hk, List.flatten_cons,
            ihn _ (by simp [List.length_drop] at hl ⊢; omega)]
        exact List.take_append_drop k (a :: t)
  exact main l.length l le_rfl

theorem chunksOf_chunk_le {α : Type} (k : Nat) (hk : 1 ≤ k) (l : List α) :
    ∀ c ∈ chunksOf k l, c.length ≤ k := by
  have main : ∀ (n : Nat) (l : List α), l.length ≤ n →
      ∀ c ∈ chunksOf k l, c.length ≤ k := by
    intro n
    induction n with
    | zero =>
      intro l h c hc
      have : l = [] := List.eq_nil_of_length_eq_zero (by omega)
      subst this; simp [chunksOf, chunksOfF] at hc
    | succ n ihn =>
      intro l hl c hc
      cases l with
      | nil => simp [chunksOf, chunksOfF] at hc
      | cons a t =>
        rw [chunksOf_cons k hk] at hc
        rcases List.mem_cons.mp hc with hceq | hctail
        · subst hceq; simp [List.length_take]
        · exact ihn ((a :: t).drop k)
            (by simp [List.length_drop] at hl ⊢; omega) c hctail
  exact main l.length l le_rfl

theorem incrPump_done (st : X11) (h : st.selection_req_data = Option.none)
    (fuel : Nat) : incrPump st fuel = some (st, []) := by
  cases fuel <;> simp [incrPump, h]

/-- Driving an in-flight INCR send with matching PropertyDelete events
writes exactly the consecutive chunks of at most `max_prop_size` bytes of
the remaining buffer, then one zero-length property, then frees the
buffer and advances the (single-request) queue. -/
theorem incrPump_chunks (req : SelReq) (data : List Nat) :
    ∀ (fuel pos : Nat) (st : X11),
      st.selection_req = [req] →
      st.selection_req_data = some data →
      st.selection_req_data_pos = pos →
      pos ≤ data.length →
      1 ≤ st.max_prop_size →
      data.length - pos < fuel →
      incrPump st fuel =
        some ({ st with selection_req := [], selection_req_data := Option.none, selection_req_data_pos := 0, selection_req_atom := 0 },
          (chunksOf st.max_prop_size (data.drop pos)).map
            (fun c => Output.changeProperty req.requestor
              st.selection_req_atom req.target 8 c)
            ++ [Output.changeProperty req.requestor st.selection_req_atom
                  req.target 8 []]) := by
  intro fuel
  induction fuel with
  | zero => intro pos st _ _ _ _ _ hf; omega
  | succ f ihf =>
    intro pos st hq hd hp hple hmax hf
    have hstep : vdagent_x11_handle_property_delete_notify st req.requestor
        st.selection_req_atom =
        (if (min (data.length - pos) st.max_prop_size) = 0 then
          (processSelReqs { st with selection_req_data := Option.none, selection_req_data_pos := 0, selection_req_atom := 0 } []).map
            (fun p => (p.1, Output.changeProperty req.requestor
              st.selection_req_atom req.target 8
              ((data.drop pos).take (min (data.length - pos)
                st.max_prop_size)) :: p.2))
        else
          some ({ st with selection_req_data_pos := st.selection_req_data_pos + min (data.length - pos) st.max_prop_size },
            [Output.changeProperty req.requestor st.selection_req_atom
              req.target 8
              ((data.drop pos).take (min (data.length - pos)
                st.max_prop_size))])) := by
      simp [vdagent_x11_handle_property_delete_notify, hd, hq, hp]
    have hunfold : incrPump st (f + 1) =
        match vdagent_x11_handle_property_delete_notify st req.requestor
            st.selection_req_atom with
        | Option.none => Option.none
        | some p => (incrPump p.1 f).map
            (fun q : X11 × List Output => (q.1, p.2 ++ q.2)) := by
      simp only [incrPump, hd, hq]
    by_cases hrem : data.length - pos = 0
    · have hmin : min (data.length - pos) st.max_prop_size = 0 := by
        simp [hrem]
      have hdropnil : data.drop pos = [] := by
        apply List.drop_eq_nil_of_le; omega
      rw [hmin, if_pos rfl] at hstep
      simp only [hdropnil, List.take_nil] at hstep
      have hstep2 : vdagent_x11_handle_property_delete_notify st req.requestor
          st.selection_req_atom =
          some ({ st with selection_req := [], selection_req_data := Option.none, selection_req_data_pos := 0, selection_req_atom := 0 },
            [Output.changeProperty req.requestor st.selection_req_atom
              req.target 8 []]) := by
        rw [hstep]; rfl
      have hcomb : incrPump st (f + 1) =
          (incrPump { st with selection_req := [], selection_req_data := Option.none, selection_req_data_pos := 0, selection_req_atom := 0 } f).map
            (fun q : X11 × List Output =>
              (q.1, [Output.changeProperty req.requestor
                st.selection_req_atom req.target 8 []] ++ q.2)) := by
        rw [hunfold, hstep2]
      rw [hcomb, incrPump_done _ rfl f]
      rw [hdropnil]
      rfl
    · have hmin0 : min (data.length - pos) st.max_prop_size ≠ 0 := by
        omega
      set len := min (data.length - pos) st.max_prop_size with hlen
      rw [if_neg hmin0] at hstep
      have hcomb : incrPump st (f + 1) =
          (incrPump { st with selection_req_data_pos := st.selection_req_data_pos + len } f).map
            (fun q : X11 × List Output =>
              (q.1, [Output.changeProperty req.requestor
                st.selection_req_atom req.target 8
                ((data.drop pos).take len)] ++ q.2)) := by
        rw [hunfold, hstep]
      have hih := ihf (pos + len)
        { st with selection_req_data_pos := st.selection_req_data_pos + len }
        (by simpa using hq) (by simpa using hd) (by simp [hp])
        (by omega) (by simpa using hmax) (by omega)
      rw [hcomb, hih]
      simp only [Option.map_some']
      have hl : (data.drop pos).length = data.length - pos := by
        simp [List.length_drop]
      have hchunk :
          (data.drop pos).take len :: chunksOf st.max_prop_size
              (data.drop (pos + len)) =
            chunksOf st.max_prop_size (data.drop pos) := by
        have hne : data.drop pos ≠ [] := by
          intro hnil
          rw [hnil] at hl
          simp at hl
          omega
        obtain ⟨b, u, hbu⟩ := List.exists_cons_of_ne_nil hne
        have htk : (data.drop pos).take len =
            (data.drop pos).take st.max_prop_size := by
          rcases le_total st.max_prop_size (data.length - pos) with hle2 | hle2
          · have : len = st.max_prop_size := by omega
            rw [this]
          · have : len = data.length - pos := by omega
            rw [this, ← hl, List.take_length, List.take_of_length_le]
            omega
        have hdr : data.drop (pos + len) =
            (data.drop pos).drop st.max_prop_size := by
          rw [List.drop_drop]
          rcases le_total st.max_prop_size (data.length - pos) with hle2 | hle2
          · have : len = st.max_prop_size := by omega
            rw [this, Nat.add_comm]
          · have h1 : data.length ≤ pos + len := by omega
            rw [List.drop_eq_nil_of_le h1]
            exact (List.drop_eq_nil_of_le (by omega)).symm
        rw [htk, hdr, hbu, ← chunksOf_cons st.max_prop_size hmax, ← hbu]
      rw [← hchunk]
      rfl

/-- C2: an outbound payload of `N` bytes of type `T` delivered while the
X11 requestor at the head of the queue awaits `T` is written in one
8-bit property of the requested target type when `N ≤ max_prop_size`;
otherwise an INCR property holding `N` is written first and then, on
each matching `PropertyNotify(PropertyDelete)`, successive chunks of at
most `max_prop_size` bytes whose concatenation equals the input bytes,
terminated by one zero-length property write after which the buffer is
freed and the queue advances. -/
theorem C2_outbound_round_trip (st : X11) (req : SelReq) (T : Nat)
    (data : List Nat) (hq : st.selection_req = [req])
    (hbuf : st.selection_req_data = Option.none)
    (ht : vdagent_x11_target_to_type req.target = TTTResult.found T)
    (hmax : 1 ≤ st.max_prop_size) :
    C2concl st req T data := by
  constructor
  · intro hle
    simp only [vdagent_x11_clipboard_data, hbuf, Option.isSome_none,
               Bool.false_eq_true, if_false, hq, ht]
    rw [if_neg (by simp), if_neg (by omega)]
    simp [processSelReqs, hbuf]
  · intro hgt
    refine ⟨?_, ?_, chunksOf_chunk_le _ hmax _, chunksOf_flatten _ hmax _⟩
    · simp only [vdagent_x11_clipboard_data, hbuf, Option.isSome_none,
                 Bool.false_eq_true, if_false, hq, ht]
      rw [if_neg (by simp), if_pos hgt]
    · have := incrPump_chunks req data (data.length + 1) 0
        { st with selection_req_data := some data,
                  selection_req_data_pos := 0,
                  selection_req_atom :=
                    if req.property = 0 then req.target else req.property }
        (by simpa using hq) rfl rfl (by omega) (by simpa using hmax)
        (by omega)
      simpa using this

theorem C2_witness :
    C2concl cStClient cReq VD_AGENT_CLIPBOARD_UTF8_TEXT [1, 2, 3, 4, 5, 6] :=
  C2_outbound_round_trip cStClient cReq VD_AGENT_CLIPBOARD_UTF8_TEXT
    [1, 2, 3, 4, 5, 6] rfl rfl (by decide) (by decide)

/-! ### Claim C10 -/

/-- C10 (implicit): when the X11 SelectionRequest being answered carries
`property = None` (0), every successful reply writes the result to a
property named by the request's target atom instead — the TARGETS
catalog reply, the single-shot data reply and the INCR start — and the
`SelectionNotify` sent back reports that target atom as its property
rather than `None`. -/
theorem C10_property_none_fallback (st1 : X11) (req1 : SelReq)
    (rest1 : List SelReq) (st2 : X11) (req2 : SelReq) (T : Nat)
    (d : List Nat)
    (h1q : st1.selection_req = req1 :: rest1)
    (h1own : st1.clipboard_owner req1.selection = Owner.client)
    (h1tgt : req1.target = targets_atom)
    (h1prop : req1.property = 0)
    (h2q : st2.selection_req = [req2])
    (h2buf : st2.selection_req_data = Option.none)
    (h2prop : req2.property = 0)
    (h2t : vdagent_x11_target_to_type req2.target = TTTResult.found T) :
    C10concl st1 req1 rest1 st2 req2 T d := by
  refine ⟨?_, fun hle => ?_, fun hgt => ?_⟩
  · simp only [vdagent_x11_handle_selection_request, h1q, processSelReqs]
    rw [if_neg (by rw [h1own]; simp),
        if_neg (by rw [h1tgt]; decide),
        if_pos h1tgt, if_pos h1prop, h1tgt]
  · simp only [vdagent_x11_clipboard_data, h2buf, Option.isSome_none,
               Bool.false_eq_true, if_false, h2q, h2t]
    rw [if_neg (by simp), if_neg (by omega), if_pos h2prop]
    simp [processSelReqs, h2buf]
  · simp only [vdagent_x11_clipboard_data, h2buf, Option.isSome_none,
               Bool.false_eq_true, if_false, h2q, h2t]
    rw [if_neg (by simp), if_pos hgt, if_pos h2prop]

theorem C10_witness :
    C10concl cStClientTargets cReqTargets [] cStClientNoProp cReqNoProp
      VD_AGENT_CLIPBOARD_UTF8_TEXT [1, 2, 3] :=
  C10_property_none_fallback cStClientTargets cReqTargets [] cStClientNoProp
    cReqNoProp VD_AGENT_CLIPBOARD_UTF8_TEXT [1, 2, 3] rfl (by decide) rfl rfl
    rfl rfl rfl (by decide)

end VdAgentX11
